import Mathlib

/-!
Verification development for the series routing engine
(`src/routing/route_series.py` of the mercure repository).

The Python source is shallowly embedded as executable Lean functions over an
explicit filesystem state (`FS`): the incoming spool folder is a list of file
stems (each stem standing for the sibling `.dcm`/`.tags` pair, the atomic unit
moved by the engine), and staging folders are records carrying their path,
contents, task-descriptor flag and lock flag.  External collaborators
(the rule evaluator, the lock primitive, `mkdir`, `shutil` transfers, the
task-file generators) are abstracted by a decision environment `Env` whose
boolean oracles say which fallible operation raises; telemetry and webhook
calls are recorded in an event trace.

Literal values coming from `common.constants` (which is not part of the
routing source file) are modelled from the spec: the `.dcm`/`.tags`/`.lock`/
`.error` extensions, the `#` separator, the action names
`route`/`process`/`both`/`notification`/`discard` and the trigger scopes
`series`/`study`.
-/

/-- A Python exception kind that the embedded code can raise. -/
inductive PyErr where
  | typeError
  | indexError
deriving DecidableEq, Repr

/-- A routing rule, as stored in the configuration.  The Python source reads
every field with `dict.get(key, default)`, so each recognized field is an
`Option` here and the access paths apply the same defaults via `Option.getD`. -/
structure Rule where
  disabled : Option String := none
  rule : Option String := none
  action : Option String := none
  action_trigger : Option String := none
  target : Option String := none
  notification_webhook : Option String := none
  notification_payload : Option String := none
deriving DecidableEq, Repr

/-- The tag document of the representative slice.  Rule predicates consume it
opaquely through the evaluation oracle; the routing core itself reads only
`StudyInstanceUID` (required key, spec section 3). -/
structure TagDoc where
  studyUID : String
deriving DecidableEq, Repr

/-- The read-only configuration surface used by the router: the rules table
(`ruleNames` gives the configuration/iteration order of the `rules` dict,
`ruleOf` the entries), the targets table (only key membership is consulted),
and the four folder paths. -/
structure Config where
  ruleNames : List String
  ruleOf : String → Rule
  targets : List String
  incomingDir : String
  discardDir : String
  outgoingDir : String
  processingDir : String
  errorDir : String

/-- Rule-evaluation interface `parse_rule(expression, tagDoc) -> bool`,
which may raise (`Except.error`). -/
def RuleEval : Type := String → TagDoc → Except Unit Bool

/-- `get_triggered_rules` (source lines 151-174), iterating the rules table in
configuration order.  Rules with `disabled == "True"` are skipped; a truthy
predicate adds the rule to the triggered set; a triggered rule with
`action == discard` is recorded as the discard override and iteration stops
(`break`); a raising predicate is caught per rule and iteration continues. -/
def getTriggeredRulesGo (evr : RuleEval) (tags : TagDoc) (ruleOf : String → Rule) :
    List String → List String × String
  | [] => ([], "")
  | name :: rest =>
    let r := ruleOf name
    if (r.disabled.getD "False") == "True" then
      getTriggeredRulesGo evr tags ruleOf rest
    else
      match evr (r.rule.getD "False") tags with
      | .error _ => getTriggeredRulesGo evr tags ruleOf rest
      | .ok true =>
        if (r.action.getD "") == "discard" then
          ([name], name)
        else
          let p := getTriggeredRulesGo evr tags ruleOf rest
          (name :: p.1, p.2)
      | .ok false => getTriggeredRulesGo evr tags ruleOf rest

/-- Entry point of the rule matcher over a configuration. -/
def get_triggered_rules (evr : RuleEval) (tags : TagDoc) (cfg : Config) :
    List String × String :=
  getTriggeredRulesGo evr tags cfg.ruleOf cfg.ruleNames

/-- Truthiness of the predicate evaluation; a raising evaluation counts as
not-truthy (the rule is skipped). -/
def evalTruthy (evr : RuleEval) (tags : TagDoc) (r : Rule) : Bool :=
  match evr (r.rule.getD "False") tags with
  | .ok b => b
  | .error _ => false

/-- Claim-side predicate: the rule is enabled and its predicate evaluates
truthy (so it joins the triggered set). -/
def ruleFires (evr : RuleEval) (tags : TagDoc) (ruleOf : String → Rule) (name : String) :
    Bool :=
  (!((ruleOf name).disabled.getD "False" == "True")) && evalTruthy evr tags (ruleOf name)

/-- Claim-side predicate: the rule fires and has `action == discard`, so it
stops the iteration. -/
def ruleStops (evr : RuleEval) (tags : TagDoc) (ruleOf : String → Rule) (name : String) :
    Bool :=
  ruleFires evr tags ruleOf name && ((ruleOf name).action.getD "" == "discard")

/-- The portion of the configuration order actually visited: everything up to
and including the first stopping (discard-triggering) rule. -/
def takeToStopper (p : String → Bool) : List String → List String
  | [] => []
  | n :: rest => if p n then [n] else n :: takeToStopper p rest

/-- Reference form of the rule matcher, written after the claim's words: the
triggered set is the firing rules among the visited prefix, and the discard
override is the name of the first stopping rule (empty if none is reached). -/
def triggeredRulesSpec (evr : RuleEval) (tags : TagDoc) (ruleOf : String → Rule)
    (names : List String) : List String × String :=
  ((takeToStopper (ruleStops evr tags ruleOf) names).filter (ruleFires evr tags ruleOf),
    match names.find? (ruleStops evr tags ruleOf) with
    | some n => n
    | none => "")

/-- Claim C3: for every rules table and tag document, `get_triggered_rules`
iterates rules in configuration order, skips every rule whose `disabled` field
equals `"True"`, adds each rule whose predicate evaluates truthy to the
triggered set, and when such a rule additionally has `action == discard` it
records that rule's name as the discard override and stops iterating (later
rules are never consulted — the result is computed from the prefix up to the
stopper only); a rule whose predicate evaluation raises is skipped and
iteration continues with the next rule. -/
theorem get_triggered_rules_matches_spec (evr : RuleEval) (tags : TagDoc)
    (cfg : Config) :
    get_triggered_rules evr tags cfg =
      triggeredRulesSpec evr tags cfg.ruleOf cfg.ruleNames := by
  show getTriggeredRulesGo evr tags cfg.ruleOf cfg.ruleNames =
    triggeredRulesSpec evr tags cfg.ruleOf cfg.ruleNames
  induction cfg.ruleNames with
  | nil => rfl
  | cons n rest ih =>
    unfold getTriggeredRulesGo triggeredRulesSpec takeToStopper
    cases hd : ((cfg.ruleOf n).disabled.getD "False") == "True" with
    | true =>
      have hf : ruleFires evr tags cfg.ruleOf n = false := by
        simp [ruleFires, hd]
      have hs : ruleStops evr tags cfg.ruleOf n = false := by
        simp [ruleStops, hf]
      simp only [hd, if_true, hs, if_false, List.find?, List.filter, hf]
      simpa [triggeredRulesSpec] using ih
    | false =>
      cases hev : evr ((cfg.ruleOf n).rule.getD "False") tags with
      | error e =>
        have hf : ruleFires evr tags cfg.ruleOf n = false := by
          simp [ruleFires, evalTruthy, hev]
        have hs : ruleStops evr tags cfg.ruleOf n = false := by
          simp [ruleStops, hf]
        simp only [hd, Bool.false_eq_true, if_false, hev, hs, List.find?, List.filter, hf]
        simpa [triggeredRulesSpec] using ih
      | ok b =>
        cases b with
        | false =>
          have hf : ruleFires evr tags cfg.ruleOf n = false := by
            simp [ruleFires, evalTruthy, hev]
          have hs : ruleStops evr tags cfg.ruleOf n = false := by
            simp [ruleStops, hf]
          simp only [hd, Bool.false_eq_true, if_false, hev, hs, List.find?, List.filter, hf]
          simpa [triggeredRulesSpec] using ih
        | true =>
          have hf : ruleFires evr tags cfg.ruleOf n = true := by
            simp [ruleFires, evalTruthy, hev, hd]
          cases ha : ((cfg.ruleOf n).action.getD "") == "discard" with
          | true =>
            have hs : ruleStops evr tags cfg.ruleOf n = true := by
              simp [ruleStops, hf, ha]
            simp [hd, hev, ha, hs, List.find?, List.filter, hf]
          | false =>
            have hs : ruleStops evr tags cfg.ruleOf n = false := by
              simp [ruleStops, hf, ha]
            simp only [hd, Bool.false_eq_true, if_false, hev, ha, hs, List.find?,
              List.filter, hf]
            simp only [triggeredRulesSpec] at ih
            simp [ih]

/-- Observable effects: a reception-webhook call made by
`trigger_serieslevel_notification_reception` (tagged with the rule on whose
behalf it fires, which determines the configured url/payload), an ERROR
telemetry event (`monitor.send_event`), and the DISCARD/MOVE series events. -/
inductive Event where
  | webhook (rule : String)
  | errEvt (msg : String)
  | seriesDiscard (uid : String) (fileCount : Nat) (info : String)
  | seriesMove (uid : String) (fileCount : Nat) (path : String)
deriving DecidableEq, Repr

/-- Bookkeeping tag recording which dispatch loop created a staging folder
(the discard path, the outgoing loop for a given target, the processing loop
for a given rule, or the study-level loop for a given rule). -/
inductive FolderCtx where
  | discardC
  | outgoingFor (target : String)
  | processingFor (rule : String)
  | studyFor (rule : String)
deriving DecidableEq, Repr

/-- A staging folder: its path, creation context, the stems of the
`.dcm`/`.tags` pairs it holds, whether a task descriptor has been written,
and whether a `.lock` sentinel is currently present. -/
structure Folder where
  path : String
  ctx : FolderCtx
  files : List String
  hasTask : Bool
  locked : Bool
deriving DecidableEq, Repr

/-- The filesystem state seen by the engine: the stems present in the
incoming folder (each standing for its `.dcm`/`.tags` pair) and the staging
folders, plus the counter feeding the uuid supply. -/
structure FS where
  incoming : List String
  folders : List Folder
  uuidCtr : Nat
deriving DecidableEq, Repr

/-- Decision environment abstracting the fallible external operations: the
uuid supply, and oracles saying which `os.mkdir` raises, which `mkdir`
returns without creating the folder (so the verify-exists check fails),
which `FileLock` acquisition or release raises, which `shutil` transfer
raises, which `os.remove` raises, and for which folder the processing
task-file generator reports failure. -/
structure Env where
  uuidGen : Nat → String
  mkdirRaises : String → Bool
  mkdirSilentFail : String → Bool
  lockRaises : String → Bool
  lockFreeRaises : String → Bool
  transferRaises : String → String → Bool
  removeRaises : String → Bool
  taskGenFails : String → Bool

/-- Append file stem `e` to the folder at `path` (a filesystem write is
addressed by path). -/
def addFileToFolders (path e : String) (l : List Folder) : List Folder :=
  l.map fun f => if f.path = path then { f with files := f.files ++ [e] } else f

/-- `shutil.move` of a pair out of incoming into the folder at `path`. -/
def FS.moveIn (fs : FS) (path e : String) : FS :=
  { fs with incoming := fs.incoming.erase e,
            folders := addFileToFolders path e fs.folders }

/-- `shutil.copy` of a pair into the folder at `path` (incoming unchanged). -/
def FS.copyIn (fs : FS) (path e : String) : FS :=
  { fs with folders := addFileToFolders path e fs.folders }

/-- Set or clear the `.lock` sentinel of the folder at `path`. -/
def setLocked (path : String) (b : Bool) (fs : FS) : FS :=
  { fs with folders := fs.folders.map fun f =>
      if f.path = path then { f with locked := b } else f }

/-- Record that a task descriptor was written into the folder at `path`. -/
def setTask (path : String) (fs : FS) : FS :=
  { fs with folders := fs.folders.map fun f =>
      if f.path = path then { f with hasTask := true } else f }

/-- `push_files` (source lines 452-476): transfer each stem's `.dcm`/`.tags`
pair from incoming into `target_path`, copying when `copy_files` is true and
moving otherwise.  A raising transfer (or a vanished source file) is reported
and the function returns `False` immediately, transferring none of the
remaining pairs. -/
def push_files (env : Env) (target_path : String) (copy_files : Bool) :
    List String → FS → FS × List Event × Bool
  | [], fs => (fs, [], true)
  | e :: rest, fs =>
    if e ∈ fs.incoming ∧ env.transferRaises target_path e = false then
      let fs1 := if copy_files then fs.copyIn target_path e else fs.moveIn target_path e
      push_files env target_path copy_files rest fs1
    else
      (fs, [.errEvt ("Problem while pushing file to outgoing " ++ e)], false)

/-- An environment in which every fallible operation succeeds and the uuid
supply yields `u0`, `u1`, ... -/
def envAllOk : Env :=
  { uuidGen := fun n => "u" ++ toString n
    mkdirRaises := fun _ => false
    mkdirSilentFail := fun _ => false
    lockRaises := fun _ => false
    lockFreeRaises := fun _ => false
    transferRaises := fun _ _ => false
    removeRaises := fun _ => false
    taskGenFails := fun _ => false }

/-- Environment in which only the transfer of stem `a` raises. -/
def envFailA : Env :=
  { envAllOk with transferRaises := fun _ e => e == "a" }

/-- Counterexample to claim C7 as stated: with file list `[a, b]` where the
transfer of `a` raises, `push_files` reports the error and returns `False`
without transferring `b` — the incoming folder and the target folder are left
exactly as they were, refuting "the remaining file pairs in the list are
still transferred". -/
theorem push_files_aborts_batch_counterexample :
    push_files envFailA "P" true ["a", "b"]
        ⟨["a", "b"], [⟨"P", .processingFor "r", [], true, true⟩], 0⟩ =
      (⟨["a", "b"], [⟨"P", .processingFor "r", [], true, true⟩], 0⟩,
        [.errEvt "Problem while pushing file to outgoing a"], false) := by
  decide

/-- Claim C7 (amended): when the transfer of a file pair raises, the error is
reported and `push_files` returns `False` immediately; the file pairs after
the failing one are never transferred — the whole run coincides with the run
that ends at the failing pair. -/
theorem push_files_stops_at_failure (env : Env) (target_path : String)
    (copy_files : Bool) (l1 : List String) (e : String) (l2 : List String) (fs : FS)
    (hfail : env.transferRaises target_path e = true) :
    push_files env target_path copy_files (l1 ++ e :: l2) fs =
        push_files env target_path copy_files (l1 ++ [e]) fs ∧
      (push_files env target_path copy_files (l1 ++ e :: l2) fs).2.2 = false := by
  induction l1 generalizing fs with
  | nil =>
    have hcond : ¬(e ∈ fs.incoming ∧ env.transferRaises target_path e = false) := by
      rintro ⟨-, h⟩; rw [hfail] at h; cases h
    constructor
    · simp only [List.nil_append, push_files, if_neg hcond]
    · simp only [List.nil_append, push_files, if_neg hcond]
  | cons x l1' ih =>
    by_cases hx : x ∈ fs.incoming ∧ env.transferRaises target_path x = false
    · constructor
      · simp only [List.cons_append, push_files, if_pos hx]
        exact (ih _).1
      · simp only [List.cons_append, push_files, if_pos hx]
        exact (ih _).2
    · constructor
      · simp only [List.cons_append, push_files, if_neg hx]
      · simp only [List.cons_append, push_files, if_neg hx]

/-- Witness for `push_files_stops_at_failure` at a concrete input. -/
theorem push_files_stops_at_failure_witness :
    push_files envFailA "P" true (["x"] ++ "a" :: ["b"])
          ⟨["x", "a", "b"], [⟨"P", .processingFor "r", [], true, true⟩], 0⟩ =
        push_files envFailA "P" true (["x"] ++ ["a"])
          ⟨["x", "a", "b"], [⟨"P", .processingFor "r", [], true, true⟩], 0⟩ ∧
      (push_files envFailA "P" true (["x"] ++ "a" :: ["b"])
          ⟨["x", "a", "b"], [⟨"P", .processingFor "r", [], true, true⟩], 0⟩).2.2 = false :=
  push_files_stops_at_failure envFailA "P" true ["x"] "a" ["b"]
    ⟨["x", "a", "b"], [⟨"P", .processingFor "r", [], true, true⟩], 0⟩ (by decide)

/-- The per-file move loop of `push_series_discard` (source lines 213-221):
unlike `push_files`, a raising move is reported and the loop continues with
the remaining pairs. -/
def discardLoop (env : Env) (path : String) : List String → FS → FS × List Event
  | [], fs => (fs, [])
  | e :: rest, fs =>
    if e ∈ fs.incoming ∧ env.transferRaises path e = false then
      discardLoop env path rest (fs.moveIn path e)
    else
      let p := discardLoop env path rest fs
      (p.1, .errEvt ("Problem during discarding file " ++ e) :: p.2)

/-- `push_series_discard` (source lines 177-231): create a fresh uuid-named
folder under the discard parent, verify it exists, lock it, emit the DISCARD
series event, move every pair in (continuing past per-file errors), emit the
MOVE series event and release the lock. -/
def push_series_discard (cfg : Config) (env : Env) (fileList : List String)
    (series_UID discard_series : String) (fs : FS) : FS × List Event :=
  let path := cfg.discardDir ++ "/" ++ env.uuidGen fs.uuidCtr
  let fs1 : FS := { fs with uuidCtr := fs.uuidCtr + 1 }
  if env.mkdirRaises path then
    (fs1, [.errEvt ("Unable to create discard folder " ++ path)])
  else if env.mkdirSilentFail path then
    (fs1, [.errEvt ("Creating discard folder not possible " ++ path)])
  else
    let fs2 : FS := { fs1 with folders := fs1.folders ++ [⟨path, .discardC, [], false, false⟩] }
    if env.lockRaises path then
      (fs2, [.errEvt ("Unable to create lock file in discard folder " ++ path)])
    else
      let fs3 := setLocked path true fs2
      let info := if discard_series ≠ "" then "Discard by rule " ++ discard_series else ""
      let p := discardLoop env path fileList fs3
      let ev5 := Event.seriesDiscard series_UID fileList.length info ::
        p.2 ++ [Event.seriesMove series_UID fileList.length path]
      if env.lockFreeRaises path then
        (p.1, ev5 ++ [.errEvt ("Unable to remove lock file " ++ path)])
      else
        (setLocked path false p.1, ev5)

/-- Test of `action_trigger == study` with the source's default value
`series` (source line 239). -/
def isStudyTrigger (cfg : Config) (name : String) : Bool :=
  ((cfg.ruleOf name).action_trigger.getD "series") == "study"

/-- Test selecting the series-level routing rules (source lines 292-293). -/
def isSeriesRoute (cfg : Config) (name : String) : Bool :=
  (((cfg.ruleOf name).action_trigger.getD "series") == "series") &&
    (((cfg.ruleOf name).action.getD "") == "route")

/-- Test selecting the series-level processing rules (source lines 303-305). -/
def isSeriesProcessing (cfg : Config) (name : String) : Bool :=
  (((cfg.ruleOf name).action_trigger.getD "series") == "series") &&
    ((((cfg.ruleOf name).action.getD "") == "process") ||
      (((cfg.ruleOf name).action.getD "") == "both"))

/-- Test selecting the series-level notification rules (source lines 360-361). -/
def isSeriesNotification (cfg : Config) (name : String) : Bool :=
  (((cfg.ruleOf name).action_trigger.getD "series") == "series") &&
    (((cfg.ruleOf name).action.getD "") == "notification")

/-- The loop body of `push_series_studylevel` (source lines 238-270).  For a
triggered rule with study trigger the folder name is computed as
`study_UID + "#" + rule` with no parent directory prefix (source line 245),
i.e. relative to the working directory; if it does not exist it is created.
The subsequent `Path(folder_name / mercure_names.LOCK)` (source line 256)
divides two strings and raises `TypeError`, which the bare `except` of lines
258-262 catches, reporting the lock error and continuing with the next rule —
so `create_study_task` and `push_files` (lines 264-270) are never reached. -/
def studylevelGo (cfg : Config) (env : Env) (tags : TagDoc) :
    List String → FS → FS × List Event
  | [], fs => (fs, [])
  | name :: rest, fs =>
    if isStudyTrigger cfg name then
      let folderName := tags.studyUID ++ "#" ++ name
      if folderName ∈ fs.folders.map Folder.path then
        let p := studylevelGo cfg env tags rest fs
        (p.1, .errEvt ("Unable to create lock file " ++ folderName) :: p.2)
      else if env.mkdirRaises folderName then
        let p := studylevelGo cfg env tags rest fs
        (p.1, .errEvt ("Unable to create folder " ++ folderName) :: p.2)
      else if env.mkdirSilentFail folderName then
        let p := studylevelGo cfg env tags rest fs
        (p.1, .errEvt ("Unable to create lock file " ++ folderName) :: p.2)
      else
        let fsA : FS := { fs with folders := fs.folders ++ [⟨folderName, .studyFor name, [], false, false⟩] }
        let p := studylevelGo cfg env tags rest fsA
        (p.1, .errEvt ("Unable to create lock file " ++ folderName) :: p.2)
    else studylevelGo cfg env tags rest fs

/-- `push_series_studylevel` (source lines 234-270). -/
def push_series_studylevel (cfg : Config) (env : Env) (triggered_rules : List String)
    (_file_list : List String) (_series_UID : String) (tags_list : TagDoc) (fs : FS) :
    FS × List Event :=
  studylevelGo cfg env tags_list triggered_rules fs

/-- Python dict assignment `d[k] = v`: replace in place if the key exists,
otherwise append. -/
def dictInsert (k v : String) : List (String × String) → List (String × String)
  | [] => [(k, v)]
  | (a, b) :: rest => if a = k then (a, v) :: rest else (a, b) :: dictInsert k v rest

/-- The target-collection loop of `push_serieslevel_routing` (source lines
291-297): for each triggered series-level rule with `action == route`, a
non-empty `target` is written into the selected-targets dict, and the
reception webhook fires for the rule whether or not its target is empty. -/
def collectTargetsGo (cfg : Config) :
    List String → List (String × String) → List (String × String) × List Event
  | [], sel => (sel, [])
  | name :: rest, sel =>
    if isSeriesRoute cfg name then
      let tgt := (cfg.ruleOf name).target.getD ""
      let sel1 := if tgt ≠ "" then dictInsert tgt name sel else sel
      let p := collectTargetsGo cfg rest sel1
      (p.1, .webhook name :: p.2)
    else collectTargetsGo cfg rest sel

/-- The per-target loop of `push_serieslevel_outgoing` (source lines 381-449).
A target missing from the targets table is reported and skipped (line 385).
For a configured target, a fresh uuid-named folder is created under the
outgoing parent and verified; failures there return from the whole function.
Then `Path(folder_name / mercure_names.LOCK)` (source line 403) divides two
strings and raises `TypeError`, caught by the bare `except` of lines 405-409,
which reports the lock error and returns — so the task-file dump, the
ROUTE/MOVE events and the transfer loop (lines 411-449) are never reached. -/
def outgoingLoop (cfg : Config) (env : Env) :
    List (String × String) → FS → FS × List Event
  | [], fs => (fs, [])
  | (target, _rule) :: rest, fs =>
    if target ∈ cfg.targets then
      let path := cfg.outgoingDir ++ "/" ++ env.uuidGen fs.uuidCtr
      let fs1 : FS := { fs with uuidCtr := fs.uuidCtr + 1 }
      if env.mkdirRaises path then
        (fs1, [.errEvt ("Unable to create outgoing folder " ++ path)])
      else if env.mkdirSilentFail path then
        (fs1, [.errEvt ("Creating folder not possible " ++ path)])
      else
        let fs2 : FS := { fs1 with folders := fs1.folders ++ [⟨path, .outgoingFor target, [], false, false⟩] }
        (fs2, [.errEvt ("Unable to create lock file " ++ path)])
    else
      let p := outgoingLoop cfg env rest fs
      (p.1, .errEvt ("Invalid target selected " ++ target) :: p.2)

/-- `push_serieslevel_outgoing` (source lines 371-449).  The
`move_operation` flag of lines 377-379 is computed from the triggered-set
size but is only consumed by the unreachable transfer loop. -/
def push_serieslevel_outgoing (cfg : Config) (env : Env)
    (triggered_rules : List String) (_file_list : List String)
    (_series_UID : String) (_tags_list : TagDoc)
    (selected_targets : List (String × String)) (fs : FS) : FS × List Event :=
  let _move_operation : Bool := triggered_rules.length == 1
  outgoingLoop cfg env selected_targets fs

/-- `push_serieslevel_routing` (source lines 286-298): collect the selected
targets (firing reception webhooks), then hand them to
`push_serieslevel_outgoing`. -/
def push_serieslevel_routing (cfg : Config) (env : Env)
    (triggered_rules : List String) (file_list : List String)
    (series_UID : String) (tags_list : TagDoc) (fs : FS) : FS × List Event :=
  let p := collectTargetsGo cfg triggered_rules []
  let q := push_serieslevel_outgoing cfg env triggered_rules file_list series_UID
    tags_list p.1 fs
  (q.1, p.2 ++ q.2)

/-- The loop of `push_serieslevel_processing` (source lines 301-355).  For a
triggered series-level rule with action `process` or `both`: files are copied
when more than one rule triggered, moved otherwise; a fresh uuid-named folder
under the processing parent is created, verified, and locked (source line 327
builds the lock path correctly); the task generator writes the task file; the
files are pushed; the lock is released and the reception webhook fires.  Any
failure returns `False` from the whole function, aborting its remaining
rules. -/
def processingLoop (cfg : Config) (env : Env) (triggered_rules file_list : List String) :
    List String → FS → FS × List Event × Bool
  | [], fs => (fs, [], true)
  | name :: rest, fs =>
    if isSeriesProcessing cfg name then
      let copy_files : Bool := !(triggered_rules.length == 1)
      let path := cfg.processingDir ++ "/" ++ env.uuidGen fs.uuidCtr
      let fs1 : FS := { fs with uuidCtr := fs.uuidCtr + 1 }
      if env.mkdirRaises path then
        (fs1, [.errEvt ("Unable to create processing folder " ++ path)], false)
      else if env.mkdirSilentFail path then
        (fs1, [.errEvt ("Creating folder not possible " ++ path)], false)
      else
        let fs2 : FS := { fs1 with folders := fs1.folders ++ [⟨path, .processingFor name, [], false, false⟩] }
        if env.lockRaises path then
          (fs2, [.errEvt ("Unable to create lock file " ++ path)], false)
        else
          let fs3 := setLocked path true fs2
          if env.taskGenFails path then
            (fs3, [], false)
          else
            let fs4 := setTask path fs3
            let q := push_files env path copy_files file_list fs4
            if q.2.2 = false then
              (q.1, q.2.1 ++ [.errEvt ("Unable to push files into processing folder " ++ path)], false)
            else if env.lockFreeRaises path then
              (q.1, q.2.1 ++ [.errEvt ("Unable to remove lock file " ++ path)], false)
            else
              let fs5 := setLocked path false q.1
              let w := processingLoop cfg env triggered_rules file_list rest fs5
              (w.1, q.2.1 ++ Event.webhook name :: w.2.1, w.2.2)
    else processingLoop cfg env triggered_rules file_list rest fs

/-- `push_serieslevel_processing` (source lines 301-355). -/
def push_serieslevel_processing (cfg : Config) (env : Env)
    (triggered_rules : List String) (file_list : List String)
    (_series_UID : String) (_tags_list : TagDoc) (fs : FS) : FS × List Event × Bool :=
  processingLoop cfg env triggered_rules file_list triggered_rules fs

/-- The loop of `push_serieslevel_notification` (source lines 358-368).  For
a triggered series-level rule with `action == notification` the reception
webhook fires; immediately afterwards the source evaluates
`len(triggered_rules==1)` (line 366) — `len` applied to the boolean result of
comparing a dict with an int — which raises `TypeError`.  The exception is
not caught in this function or its callers, so the loop never proceeds past
the first notification rule and `remove_series` (line 367) is unreachable. -/
def notificationGo (cfg : Config) : List String → FS → FS × List Event × Option PyErr
  | [], fs => (fs, [], none)
  | name :: rest, fs =>
    if isSeriesNotification cfg name then
      (fs, [.webhook name], some .typeError)
    else notificationGo cfg rest fs

/-- `push_serieslevel_notification` (source lines 358-368). -/
def push_serieslevel_notification (cfg : Config) (_env : Env)
    (triggered_rules : List String) (_file_list : List String) (fs : FS) :
    FS × List Event × Option PyErr :=
  notificationGo cfg triggered_rules fs

/-- `remove_series` (source lines 479-489): delete each pair from incoming,
reporting and continuing past per-file errors. -/
def remove_series (env : Env) : List String → FS → FS × List Event
  | [], fs => (fs, [])
  | e :: rest, fs =>
    if e ∈ fs.incoming ∧ env.removeRaises e = false then
      remove_series env rest { fs with incoming := fs.incoming.erase e }
    else
      let p := remove_series env rest fs
      (p.1, .errEvt ("Error while removing file " ++ e) :: p.2)

/-- `push_series_serieslevel` (source lines 273-277): routing, then
processing (whose boolean result the caller ignores), then notification,
whose uncaught `TypeError` propagates. -/
def push_series_serieslevel (cfg : Config) (env : Env)
    (triggered_rules : List String) (file_list : List String)
    (series_UID : String) (tags_list : TagDoc) (fs : FS) :
    FS × List Event × Option PyErr :=
  let p := push_serieslevel_routing cfg env triggered_rules file_list series_UID tags_list fs
  let q := push_serieslevel_processing cfg env triggered_rules file_list series_UID tags_list p.1
  let w := push_serieslevel_notification cfg env triggered_rules file_list q.1
  (w.1, p.2 ++ q.2.1 ++ w.2.1, w.2.2)

/-- The dispatch section of `route_series` (source lines 131-140): discard
when no rule triggered or a discard override is set; otherwise study-level
staging, series-level fan-out, and — when more than one rule triggered and no
exception escaped the fan-out — removal of the original pairs. -/
def route_series_dispatch (cfg : Config) (env : Env)
    (triggered_rules : List String) (discard_series : String)
    (fileList : List String) (series_UID : String) (tagsList : TagDoc) (fs : FS) :
    FS × List Event × Option PyErr :=
  if triggered_rules.length = 0 ∨ discard_series ≠ "" then
    let p := push_series_discard cfg env fileList series_UID discard_series fs
    (p.1, p.2, none)
  else
    let p := push_series_studylevel cfg env triggered_rules fileList series_UID tagsList fs
    let q := push_series_serieslevel cfg env triggered_rules fileList series_UID tagsList p.1
    match q.2.2 with
    | some e => (q.1, p.2 ++ q.2.1, some e)
    | none =>
      if triggered_rules.length > 1 then
        let w := remove_series env fileList q.1
        (w.1, p.2 ++ q.2.1 ++ w.2, none)
      else (q.1, p.2 ++ q.2.1, none)

/-- A directory entry as seen by `os.scandir`. -/
structure DirEntry where
  name : String
  isDir : Bool
deriving DecidableEq, Repr

/-- Character-level test that `pat` is an initial segment of `l`. -/
def charsStarts : List Char → List Char → Bool
  | [], _ => true
  | _ :: _, [] => false
  | a :: pat, b :: l => a == b && charsStarts pat l

/-- `str.startswith(pat)` over the character lists of the strings. -/
def strStarts (s pat : String) : Bool := charsStarts pat.data s.data

/-- `str.endswith(pat)` over the character lists of the strings. -/
def strEnds (s pat : String) : Bool := charsStarts pat.data.reverse s.data.reverse

/-- The series-membership scan of `route_series` (source lines 85-92):
collect the stems of the tag sidecars whose name starts with
`series_UID + "#"` and ends with `.tags` (the stem drops the 5-character
`.tags` extension). -/
def collectFileList (listing : List DirEntry) (series_UID : String) : List String :=
  (listing.filter fun e =>
      strEnds e.name ".tags" && strStarts e.name (series_UID ++ "#") && !e.isDir).map
    fun e => e.name.dropRight 5

/-- Source line 96: `fileList[0]` is read with no emptiness guard and outside
any `try` block, so an empty scan result raises `IndexError`; otherwise the
first stem becomes the representative. -/
def representativeStem (listing : List DirEntry) (series_UID : String) :
    Except PyErr String :=
  match collectFileList listing series_UID with
  | [] => .error .indexError
  | s :: _ => .ok s

/-- `route_error_files` (source lines 491-525).  For the first entry ending
in `.error` that is not a directory, line 501 computes
`Path(config.mercure[INCOMING] / entry.name + LOCK)` — dividing two strings —
which raises `TypeError` outside any `try` block, aborting the whole sweep.
When no entry matches, the loop finishes with `error_files_found = 0` and no
aggregate telemetry event is emitted. -/
def route_error_files : List DirEntry → Except PyErr (List Event)
  | [] => .ok []
  | e :: rest =>
    if strEnds e.name ".error" && !e.isDir then .error .typeError
    else route_error_files rest

/-- Configuration with a single enabled route rule targeting the configured
target `T`. -/
def cfgRoute : Config :=
  { ruleNames := ["r"]
    ruleOf := fun _ => { action := some "route", target := some "T", rule := some "expr" }
    targets := ["T"]
    incomingDir := "IN", discardDir := "DIS", outgoingDir := "OUT"
    processingDir := "PROC", errorDir := "ERR" }

/-- Claim C1, evaluated at its failing input: one triggered rule `r` with
`action = route` and the configured target `T`, incoming holding the pairs
`S#a` and `S#b`, every external operation succeeding.  The dispatch creates
the outgoing staging folder and then aborts at the string-division
`Path(folder_name / LOCK)` of source line 403 (`TypeError`, caught, return):
no pair is moved, both originals remain in incoming, and the single
destination stays empty — not, as the claim states, every pair transferred by
a move into exactly one destination. -/
theorem route_single_rule_no_move_code_bug :
    route_series_dispatch cfgRoute envAllOk ["r"] "" ["S#a", "S#b"] "S" ⟨"Y"⟩
        ⟨["S#a", "S#b"], [], 0⟩ =
      (⟨["S#a", "S#b"], [⟨"OUT/u0", .outgoingFor "T", [], false, false⟩], 1⟩,
        [.webhook "r", .errEvt "Unable to create lock file OUT/u0"], none) := by
  decide

/-- Configuration with a single enabled notification rule. -/
def cfgNotif : Config :=
  { ruleNames := ["n"]
    ruleOf := fun _ => { action := some "notification", rule := some "expr" }
    targets := []
    incomingDir := "IN", discardDir := "DIS", outgoingDir := "OUT"
    processingDir := "PROC", errorDir := "ERR" }

/-- Configuration with a notification rule `n` and a processing rule `p2`. -/
def cfgNotif2 : Config :=
  { ruleNames := ["p2", "n"]
    ruleOf := fun name =>
      if name = "n" then { action := some "notification", rule := some "expr" }
      else { action := some "process", rule := some "expr" }
    targets := []
    incomingDir := "IN", discardDir := "DIS", outgoingDir := "OUT"
    processingDir := "PROC", errorDir := "ERR" }

/-- Claim C4, evaluated at its failing input: whatever the size of the
triggered set, as soon as a series-level notification rule is reached the
source fires its reception webhook and then raises `TypeError` at
`len(triggered_rules==1)` (line 366) — it never removes the originals for a
singleton set, and the exception propagates through `route_series`'s dispatch,
so the state is left untouched. -/
theorem notification_len_raises_code_bug :
    push_serieslevel_notification cfgNotif envAllOk ["n"] ["S#a"] ⟨["S#a"], [], 0⟩ =
        (⟨["S#a"], [], 0⟩, [.webhook "n"], some .typeError) ∧
      push_serieslevel_notification cfgNotif2 envAllOk ["p2", "n"] ["S#a"]
          ⟨["S#a"], [], 0⟩ =
        (⟨["S#a"], [], 0⟩, [.webhook "n"], some .typeError) ∧
      route_series_dispatch cfgNotif envAllOk ["n"] "" ["S#a"] "S" ⟨"Y"⟩
          ⟨["S#a"], [], 0⟩ =
        (⟨["S#a"], [], 0⟩, [.webhook "n"], some .typeError) := by
  refine ⟨by decide, by decide, by decide⟩

/-- Claim C5, evaluated at its failing input: when the incoming folder holds
no tag sidecar of the series (here only `T#1.tags` while routing series `S`),
the unguarded `fileList[0]` of source line 96 raises `IndexError` instead of
proceeding defensively past the scan; with a matching sidecar the first stem
becomes the representative. -/
theorem empty_scan_index_error_code_bug :
    representativeStem [⟨"T#1.tags", false⟩] "S" = .error .indexError ∧
      representativeStem [⟨"S#1.tags", false⟩] "S" = .ok "S#1" := by
  refine ⟨by rfl, by rfl⟩

/-- Configuration with a single study-triggered rule `R`. -/
def cfgStudy : Config :=
  { ruleNames := ["R"]
    ruleOf := fun _ =>
      { action := some "route", action_trigger := some "study", rule := some "expr" }
    targets := []
    incomingDir := "IN", discardDir := "DIS", outgoingDir := "OUT"
    processingDir := "PROC", errorDir := "ERR" }

/-- Claim C6, evaluated at its failing input: one triggered rule `R` with
`action_trigger = study` and `StudyInstanceUID = Y`.  The source creates the
folder under the bare relative name `Y#R` (source line 245 prepends no
studies parent), and then the string-division lock path of line 256 raises
`TypeError`, caught by the bare `except`, which continues to the next rule —
so no study-task descriptor is written and no file is transferred, even
though this invocation created the folder. -/
theorem studylevel_staging_code_bug :
    push_series_studylevel cfgStudy envAllOk ["R"] ["S#a"] "S" ⟨"Y"⟩
        ⟨["S#a"], [], 0⟩ =
      (⟨["S#a"], [⟨"Y#R", .studyFor "R", [], false, false⟩], 0⟩,
        [.errEvt "Unable to create lock file Y#R"]) := by
  decide

/-- Claim C8, evaluated at its failing input: selected targets
`Z` (not configured) and `T` (configured).  `Z` is skipped with an error
event, as the claim states; but the staging of the remaining target `T`
creates its outgoing folder and then aborts at the lock-path `TypeError` of
source line 403 — no task descriptor, no transferred file — and the function
returns, so remaining targets are not staged. -/
theorem outgoing_remaining_targets_code_bug :
    push_serieslevel_outgoing cfgRoute envAllOk ["rz", "rt"] ["S#a"] "S" ⟨"Y"⟩
        [("Z", "rz"), ("T", "rt")] ⟨["S#a"], [], 0⟩ =
      (⟨["S#a"], [⟨"OUT/u0", .outgoingFor "T", [], false, false⟩], 1⟩,
        [.errEvt "Invalid target selected Z",
          .errEvt "Unable to create lock file OUT/u0"]) := by
  decide

/-- Claim C9, evaluated at its failing input: with `f.dcm.error` present in
the incoming folder, `route_error_files` raises `TypeError` at the
string-division lock path of source line 501 instead of relocating the
marker and payload; with no matching `.error` entry (directories are skipped)
the sweep completes and emits no aggregate event. -/
theorem error_sweeper_code_bug :
    route_error_files [⟨"f.dcm.error", false⟩] = .error .typeError ∧
      route_error_files [⟨"a.tags", false⟩, ⟨"sub.error", true⟩] = .ok [] := by
  refine ⟨by rfl, by rfl⟩

/-- A pointwise folder update keyed on a path leaves alone every folder whose
path differs. -/
theorem map_update_fresh (path : String) (u : Folder → Folder) :
    ∀ F : List Folder, (∀ f ∈ F, f.path ≠ path) →
      (F.map fun f => if f.path = path then u f else f) = F := by
  intro F hF
  induction F with
  | nil => rfl
  | cons f F ih =>
    have hf : f.path ≠ path := hF f (List.mem_cons_self f F)
    simp only [List.map_cons, if_neg hf, List.cons.injEq, true_and]
    exact ih fun g hg => hF g (List.mem_cons_of_mem f hg)

/-- `addFileToFolders` skips a fresh prefix. -/
theorem addFileToFolders_append (path e : String) (F G : List Folder)
    (hF : ∀ f ∈ F, f.path ≠ path) :
    addFileToFolders path e (F ++ G) = F ++ addFileToFolders path e G := by
  simp only [addFileToFolders, List.map_append]
  rw [map_update_fresh path _ F hF]

/-- Moving files into the folder at `path`, one by one, appends them to that
folder's contents when every other folder has a different path. -/
theorem discardLoop_ok (env : Env) (path : String) :
    ∀ (l : List String) (inc : List String) (F : List Folder) (c : FolderCtx)
      (files : List String) (t lk : Bool) (ctr : Nat),
      (∀ f ∈ F, f.path ≠ path) → l.Nodup → (∀ e ∈ l, e ∈ inc) →
      (∀ e ∈ l, env.transferRaises path e = false) →
      discardLoop env path l ⟨inc, F ++ [⟨path, c, files, t, lk⟩], ctr⟩ =
        (⟨l.foldl (fun a e => a.erase e) inc, F ++ [⟨path, c, files ++ l, t, lk⟩], ctr⟩,
          []) := by
  intro l
  induction l with
  | nil => intro inc F c files t lk ctr _ _ _ _; simp [discardLoop]
  | cons e rest ih =>
    intro inc F c files t lk ctr hF hnd hmem hok
    have he : e ∈ inc := hmem e (List.mem_cons_self e rest)
    have hoke : env.transferRaises path e = false := hok e (List.mem_cons_self e rest)
    have hcond : e ∈ inc ∧ env.transferRaises path e = false := ⟨he, hoke⟩
    have hnd' := (List.nodup_cons.mp hnd).2
    have henotin := (List.nodup_cons.mp hnd).1
    simp only [discardLoop, FS.moveIn]
    rw [if_pos hcond]
    have hfold : addFileToFolders path e (F ++ [⟨path, c, files, t, lk⟩]) =
        F ++ [⟨path, c, files ++ [e], t, lk⟩] := by
      rw [addFileToFolders_append path e F _ hF]
      simp [addFileToFolders]
    simp only [hfold]
    have hmem' : ∀ x ∈ rest, x ∈ inc.erase e := by
      intro x hx
      have hne : x ≠ e := by
        intro hxe
        rw [hxe] at hx
        exact henotin hx
      exact (List.mem_erase_of_ne hne).mpr (hmem x (List.mem_cons_of_mem e hx))
    have := ih (inc.erase e) F c (files ++ [e]) t lk ctr hF hnd' hmem'
      (fun x hx => hok x (List.mem_cons_of_mem e hx))
    rw [this]
    simp

/-- Claim C2: if the rule matcher returned an empty triggered set or a
non-empty discard override, `route_series` executes only the discard path:
with the discard-folder operations succeeding, every `.dcm`/`.tags` pair of
the series is moved into a single fresh uuid-named folder under the discard
parent, the only events are the DISCARD and MOVE series events (in particular
no reception webhook fires), no exception escapes, and no study-level,
outgoing, or processing folder is touched — the folder list changes only by
the appended discard folder. -/
theorem dispatch_discard_only (cfg : Config) (env : Env)
    (triggered_rules : List String) (discard_series : String)
    (fileList : List String) (series_UID : String) (tagsList : TagDoc) (fs : FS)
    (hbranch : triggered_rules = [] ∨ discard_series ≠ "")
    (hmk : env.mkdirRaises (cfg.discardDir ++ "/" ++ env.uuidGen fs.uuidCtr) = false)
    (hmks : env.mkdirSilentFail (cfg.discardDir ++ "/" ++ env.uuidGen fs.uuidCtr) = false)
    (hlk : env.lockRaises (cfg.discardDir ++ "/" ++ env.uuidGen fs.uuidCtr) = false)
    (hlkf : env.lockFreeRaises (cfg.discardDir ++ "/" ++ env.uuidGen fs.uuidCtr) = false)
    (htr : ∀ e ∈ fileList,
      env.transferRaises (cfg.discardDir ++ "/" ++ env.uuidGen fs.uuidCtr) e = false)
    (hfresh : ∀ f ∈ fs.folders, f.path ≠ cfg.discardDir ++ "/" ++ env.uuidGen fs.uuidCtr)
    (hnd : fileList.Nodup) (hsub : ∀ e ∈ fileList, e ∈ fs.incoming) :
    route_series_dispatch cfg env triggered_rules discard_series fileList series_UID
        tagsList fs =
      (⟨fileList.foldl (fun a e => a.erase e) fs.incoming,
          fs.folders ++ [⟨cfg.discardDir ++ "/" ++ env.uuidGen fs.uuidCtr, .discardC,
            fileList, false, false⟩],
          fs.uuidCtr + 1⟩,
        [.seriesDiscard series_UID fileList.length
            (if discard_series ≠ "" then "Discard by rule " ++ discard_series else ""),
          .seriesMove series_UID fileList.length
            (cfg.discardDir ++ "/" ++ env.uuidGen fs.uuidCtr)],
        none) := by
  have hcond : triggered_rules.length = 0 ∨ discard_series ≠ "" := by
    rcases hbranch with h | h
    · exact Or.inl (by simp [h])
    · exact Or.inr h
  rw [route_series_dispatch, if_pos hcond]
  rw [push_series_discard]
  simp only [hmk, hmks, hlk, Bool.false_eq_true, if_false]
  have hloop := discardLoop_ok env (cfg.discardDir ++ "/" ++ env.uuidGen fs.uuidCtr)
    fileList fs.incoming fs.folders .discardC [] false true fs.uuidCtr
    hfresh hnd hsub htr
  have hset1 : setLocked (cfg.discardDir ++ "/" ++ env.uuidGen fs.uuidCtr) true
      ⟨fs.incoming, fs.folders ++
        [⟨cfg.discardDir ++ "/" ++ env.uuidGen fs.uuidCtr, .discardC, [], false, false⟩],
        fs.uuidCtr + 1⟩ =
      ⟨fs.incoming, fs.folders ++
        [⟨cfg.discardDir ++ "/" ++ env.uuidGen fs.uuidCtr, .discardC, [], false, true⟩],
        fs.uuidCtr + 1⟩ := by
    simp only [setLocked, List.map_append]
    rw [map_update_fresh _ _ fs.folders hfresh]
    simp
  have hloop2 := discardLoop_ok env (cfg.discardDir ++ "/" ++ env.uuidGen fs.uuidCtr)
    fileList fs.incoming fs.folders .discardC [] false true (fs.uuidCtr + 1)
    hfresh hnd hsub htr
  have hset2 : setLocked (cfg.discardDir ++ "/" ++ env.uuidGen fs.uuidCtr) false
      ⟨fileList.foldl (fun a e => a.erase e) fs.incoming, fs.folders ++
        [⟨cfg.discardDir ++ "/" ++ env.uuidGen fs.uuidCtr, .discardC, fileList, false, true⟩],
        fs.uuidCtr + 1⟩ =
      ⟨fileList.foldl (fun a e => a.erase e) fs.incoming, fs.folders ++
        [⟨cfg.discardDir ++ "/" ++ env.uuidGen fs.uuidCtr, .discardC, fileList, false, false⟩],
        fs.uuidCtr + 1⟩ := by
    simp only [setLocked, List.map_append]
    rw [map_update_fresh _ _ fs.folders hfresh]
    simp
  rw [hset1]
  rw [hloop2]
  simp only [List.nil_append, hlkf, Bool.false_eq_true, if_false]
  rw [hset2]
  simp

/-- Witness for `dispatch_discard_only`: an empty triggered set with incoming
pair `S#a` and every external operation succeeding. -/
theorem dispatch_discard_only_witness :
    route_series_dispatch cfgRoute envAllOk [] "" ["S#a"] "S" ⟨"Y"⟩
        ⟨["S#a"], [], 0⟩ =
      (⟨["S#a"].foldl (fun a e => a.erase e) ["S#a"],
          [] ++ [⟨cfgRoute.discardDir ++ "/" ++ envAllOk.uuidGen 0, .discardC,
            ["S#a"], false, false⟩],
          0 + 1⟩,
        [.seriesDiscard "S" (["S#a"] : List String).length
            (if ("" : String) ≠ "" then "Discard by rule " ++ "" else ""),
          .seriesMove "S" (["S#a"] : List String).length
            (cfgRoute.discardDir ++ "/" ++ envAllOk.uuidGen 0)],
        none) :=
  dispatch_discard_only cfgRoute envAllOk [] "" ["S#a"] "S" ⟨"Y"⟩ ⟨["S#a"], [], 0⟩
    (Or.inl rfl) rfl rfl rfl rfl (fun e _ => rfl) (fun f hf => nomatch hf)
    (by decide) (fun e he => he)

/-- The target-collection loop fires exactly the reception webhooks of the
triggered series-level route rules, in order. -/
theorem collectTargets_events (cfg : Config) :
    ∀ (l : List String) (sel : List (String × String)),
      (collectTargetsGo cfg l sel).2 =
        (l.filter (isSeriesRoute cfg)).map Event.webhook := by
  intro l
  induction l with
  | nil => intro sel; rfl
  | cons n rest ih =>
    intro sel
    cases h : isSeriesRoute cfg n with
    | true => simp [collectTargetsGo, List.filter_cons, h, ih]
    | false => simp [collectTargetsGo, List.filter_cons, h, ih]

/-- Membership after a Python dict assignment: the pair is the assigned one
or was already present. -/
theorem dictInsert_mem (k x t v : String) :
    ∀ l : List (String × String),
      (t, v) ∈ dictInsert k x l → (t = k ∧ v = x) ∨ (t, v) ∈ l := by
  intro l
  induction l with
  | nil =>
    intro h
    simp only [dictInsert, List.mem_singleton, Prod.mk.injEq] at h
    exact Or.inl h
  | cons p rest ih =>
    intro h
    by_cases hp : p.1 = k
    · simp only [dictInsert] at h
      rw [if_pos hp] at h
      rcases List.mem_cons.mp h with h1 | h1
      · rcases Prod.mk.injEq .. ▸ h1 with ⟨h2, h3⟩
        exact Or.inl ⟨h2.symm ▸ hp, h3⟩
      · exact Or.inr (List.mem_cons_of_mem p h1)
    · simp only [dictInsert] at h
      rw [if_neg hp] at h
      rcases List.mem_cons.mp h with h1 | h1
      · exact Or.inr (h1 ▸ List.mem_cons_self p rest)
      · rcases ih h1 with h2 | h2
        · exact Or.inl h2
        · exact Or.inr (List.mem_cons_of_mem p h2)

/-- Every entry of the collected target map either was present initially or
records the non-empty configured target of the rule that inserted it. -/
theorem collectTargets_sel (cfg : Config) :
    ∀ (l : List String) (sel : List (String × String)) (t v : String),
      (t, v) ∈ (collectTargetsGo cfg l sel).1 →
        (t, v) ∈ sel ∨ ((cfg.ruleOf v).target.getD "" = t ∧ t ≠ "") := by
  intro l
  induction l with
  | nil => intro sel t v h; exact Or.inl h
  | cons n rest ih =>
    intro sel t v h
    cases hn : isSeriesRoute cfg n with
    | false =>
      simp only [collectTargetsGo, hn, Bool.false_eq_true, if_false] at h
      exact ih sel t v h
    | true =>
      simp only [collectTargetsGo, hn, if_true] at h
      by_cases htgt : (cfg.ruleOf n).target.getD "" ≠ ""
      · rw [if_pos htgt] at h
        rcases ih _ t v h with h1 | h1
        · rcases dictInsert_mem _ _ _ _ sel h1 with ⟨h2, h3⟩ | h2
          · exact Or.inr ⟨by rw [h3, h2], h2 ▸ htgt⟩
          · exact Or.inl h2
        · exact Or.inr h1
      · rw [if_neg htgt] at h
        exact ih sel t v h

/-- The outgoing loop emits only error events — no reception webhook. -/
theorem outgoingLoop_no_webhook (cfg : Config) (env : Env) (r : String) :
    ∀ (sel : List (String × String)) (fs : FS),
      Event.webhook r ∉ (outgoingLoop cfg env sel fs).2 := by
  intro sel
  induction sel with
  | nil => intro fs h; simp [outgoingLoop] at h
  | cons p rest ih =>
    intro fs h
    rcases p with ⟨target, rule⟩
    by_cases ht : target ∈ cfg.targets
    · simp only [outgoingLoop, if_pos ht] at h
      by_cases h1 : env.mkdirRaises (cfg.outgoingDir ++ "/" ++ env.uuidGen fs.uuidCtr)
      · rw [if_pos h1] at h; simp at h
      · rw [if_neg h1] at h
        by_cases h2 : env.mkdirSilentFail (cfg.outgoingDir ++ "/" ++ env.uuidGen fs.uuidCtr)
        · rw [if_pos h2] at h; simp at h
        · rw [if_neg h2] at h; simp at h
    · simp only [outgoingLoop, if_neg ht, List.mem_cons] at h
      rcases h with h | h
      · cases h
      · exact ih fs h

/-- Every folder present after the outgoing loop either predates it or was
created for a target found in the configured targets table. -/
theorem outgoingLoop_folders (cfg : Config) (env : Env) :
    ∀ (sel : List (String × String)) (fs : FS) (f : Folder),
      f ∈ (outgoingLoop cfg env sel fs).1.folders →
        f ∈ fs.folders ∨ ∃ t, t ∈ cfg.targets ∧ f.ctx = .outgoingFor t := by
  intro sel
  induction sel with
  | nil => intro fs f h; exact Or.inl h
  | cons p rest ih =>
    intro fs f h
    rcases p with ⟨target, rule⟩
    by_cases ht : target ∈ cfg.targets
    · simp only [outgoingLoop, if_pos ht] at h
      by_cases h1 : env.mkdirRaises (cfg.outgoingDir ++ "/" ++ env.uuidGen fs.uuidCtr)
      · rw [if_pos h1] at h; exact Or.inl h
      · rw [if_neg h1] at h
        by_cases h2 : env.mkdirSilentFail (cfg.outgoingDir ++ "/" ++ env.uuidGen fs.uuidCtr)
        · rw [if_pos h2] at h; exact Or.inl h
        · rw [if_neg h2] at h
          simp only [List.mem_append, List.mem_singleton] at h
          rcases h with h | h
          · exact Or.inl h
          · exact Or.inr ⟨target, ht, by rw [h]⟩
    · simp only [outgoingLoop, if_neg ht] at h
      exact ih fs f h

/-- Claim C10: during series-level routing, each triggered series-level rule
with `action == route` fires its reception webhook exactly once, in the
target-collection loop, before and independently of target validation (the
outgoing loop fires none): a rule with an empty `target` contributes no entry
to the selected-targets map yet still fires its webhook, and a rule whose
target is absent from the configured targets table fires its webhook even
though no outgoing staging folder is created for that target. -/
theorem routing_webhook_collection (cfg : Config) (env : Env)
    (triggered file_list : List String) (series_UID : String) (tags_list : TagDoc)
    (fs : FS) (r : String)
    (hnd : triggered.Nodup) (hr : r ∈ triggered) (hsr : isSeriesRoute cfg r = true) :
    ((push_serieslevel_routing cfg env triggered file_list series_UID tags_list
        fs).2.count (Event.webhook r) = 1) ∧
      ((cfg.ruleOf r).target.getD "" = "" →
        ∀ t, (t, r) ∉ (collectTargetsGo cfg triggered []).1) ∧
      ((cfg.ruleOf r).target.getD "" ∉ cfg.targets →
        ∀ f ∈ (push_serieslevel_routing cfg env triggered file_list series_UID
            tags_list fs).1.folders,
          f ∉ fs.folders → f.ctx ≠ .outgoingFor ((cfg.ruleOf r).target.getD "")) := by
  refine ⟨?_, ?_, ?_⟩
  · show ((collectTargetsGo cfg triggered []).2 ++
        (outgoingLoop cfg env (collectTargetsGo cfg triggered []).1 fs).2).count
          (Event.webhook r) = 1
    rw [List.count_append]
    have h1 : ((collectTargetsGo cfg triggered []).2).count (Event.webhook r) = 1 := by
      rw [collectTargets_events]
      have hinj : Function.Injective Event.webhook := fun a b h => by injection h
      rw [List.count_map_of_injective _ Event.webhook hinj r]
      exact List.count_eq_one_of_mem (hnd.filter _) (List.mem_filter.mpr ⟨hr, hsr⟩)
    have h2 : ((outgoingLoop cfg env (collectTargetsGo cfg triggered []).1 fs).2).count
        (Event.webhook r) = 0 :=
      List.count_eq_zero.mpr (outgoingLoop_no_webhook cfg env r _ fs)
    rw [h1, h2]
  · intro htgt t hmem
    rcases collectTargets_sel cfg triggered [] t r hmem with h | ⟨h1, h2⟩
    · cases h
    · rw [htgt] at h1; exact h2 h1.symm
  · intro hval f hf hnew
    have : f ∈ (outgoingLoop cfg env (collectTargetsGo cfg triggered []).1 fs).1.folders := hf
    rcases outgoingLoop_folders cfg env _ fs f this with h | ⟨t, ht, hctx⟩
    · exact absurd h hnew
    · intro hcontra
      rw [hctx] at hcontra
      injection hcontra with h3
      rw [h3] at ht
      exact hval ht

/-- Witness for `routing_webhook_collection` at a concrete input: a single
triggered route rule `r` with a configured target. -/
theorem routing_webhook_collection_witness :
    ((push_serieslevel_routing cfgRoute envAllOk ["r"] ["S#a"] "S" ⟨"Y"⟩
        ⟨["S#a"], [], 0⟩).2.count (Event.webhook "r") = 1) ∧
      ((cfgRoute.ruleOf "r").target.getD "" = "" →
        ∀ t, (t, "r") ∉ (collectTargetsGo cfgRoute ["r"] []).1) ∧
      ((cfgRoute.ruleOf "r").target.getD "" ∉ cfgRoute.targets →
        ∀ f ∈ (push_serieslevel_routing cfgRoute envAllOk ["r"] ["S#a"] "S" ⟨"Y"⟩
            ⟨["S#a"], [], 0⟩).1.folders,
          f ∉ (⟨["S#a"], [], 0⟩ : FS).folders →
            f.ctx ≠ .outgoingFor ((cfgRoute.ruleOf "r").target.getD "")) :=
  routing_webhook_collection cfgRoute envAllOk ["r"] ["S#a"] "S" ⟨"Y"⟩
    ⟨["S#a"], [], 0⟩ "r" (by decide) (by decide) (by decide)
